import Mathlib

/-!
Verification development for the speaker-diarization task orchestration
engine: the task registry (one Redis hash per task, written through
`src/services/task_manager.py`), the admission controller, the worker
executor lifecycle (`src/workers/tasks.py`) and the file lifecycle manager
(`src/services/file_manager.py`), modelled shallowly.

The registry is a key-value store of flat string field maps.  Each
`TaskManager` method builds a partial field mapping and merges it into the
hash at `task:{task_id}` via `redis.hset(key, mapping=...)`; `hset` creates
the hash when the key is absent and otherwise overwrites exactly the fields
named in the mapping.  Wall-clock reads (`datetime.now().isoformat()`) are
modelled by passing the rendered timestamp in as a `now : String` argument.
-/

/-- A task hash (`task:{task_id}`): a flat field map over the field names the
code ever writes.  `none` means the field is absent from the hash.  The same
type doubles as a partial field mapping passed to `hset` (absent fields are
simply not part of the mapping). -/
structure TaskRecord where
  task_id : Option String := none
  status : Option String := none
  progress : Option String := none
  message : Option String := none
  error : Option String := none
  error_code : Option String := none
  created_at : Option String := none
  updated_at : Option String := none
  completed_at : Option String := none
  original_filename : Option String := none
  callback_url : Option String := none
deriving Repr, DecidableEq

/-- The empty hash / empty mapping (no fields). -/
def emptyRecord : TaskRecord := {}

/-- One field under a Redis `hset` mapping: a field present in the mapping
(`some v`) overwrites, a field absent from the mapping (`none`) keeps the old
value. -/
def oupd (new old : Option String) : Option String :=
  match new with
  | some v => some v
  | none => old

/-- Merge the partial field mapping `m` into the existing hash `r`, as
`redis.hset(key, mapping=m)` does field by field. -/
def mergeRecord (r m : TaskRecord) : TaskRecord where
  task_id := oupd m.task_id r.task_id
  status := oupd m.status r.status
  progress := oupd m.progress r.progress
  message := oupd m.message r.message
  error := oupd m.error r.error
  error_code := oupd m.error_code r.error_code
  created_at := oupd m.created_at r.created_at
  updated_at := oupd m.updated_at r.updated_at
  completed_at := oupd m.completed_at r.completed_at
  original_filename := oupd m.original_filename r.original_filename
  callback_url := oupd m.callback_url r.callback_url

/-- First-occurrence lookup of a task hash by key. -/
def lookupTask : List (String × TaskRecord) → String → Option TaskRecord
  | [], _ => none
  | (k, r) :: t, k0 => if k = k0 then some r else lookupTask t k0

/-- `redis.hset(f"task:{k0}", mapping=m)`: merge `m` into the hash at `k0`,
creating the hash (holding exactly the mapping fields) when absent. -/
def hsetTask : List (String × TaskRecord) → String → TaskRecord → List (String × TaskRecord)
  | [], k0, m => [(k0, mergeRecord emptyRecord m)]
  | (k, r) :: t, k0, m =>
      if k = k0 then (k, mergeRecord r m) :: t else (k, r) :: hsetTask t k0 m

/-- `redis.delete(f"task:{k0}")`: remove the hash at `k0` (idempotent). -/
def deleteKey : List (String × TaskRecord) → String → List (String × TaskRecord)
  | [], _ => []
  | (k, r) :: t, k0 => if k = k0 then deleteKey t k0 else (k, r) :: deleteKey t k0

/-- Overwriting write into the metadata key space (`redis.set`). -/
def setMeta : List (String × String) → String → String → List (String × String)
  | [], k0, v => [(k0, v)]
  | (k, w) :: t, k0, v => if k = k0 then (k, v) :: t else (k, w) :: setMeta t k0 v

/-- Deletion in the metadata key space. -/
def deleteMeta : List (String × String) → String → List (String × String)
  | [], _ => []
  | (k, w) :: t, k0 => if k = k0 then deleteMeta t k0 else (k, w) :: deleteMeta t k0

/-- The shared registry state: the `task:{id}` hashes and the separately
stored `task_metadata:{id}` blobs. -/
structure Store where
  tasks : List (String × TaskRecord) := []
  task_metadata : List (String × String) := []
deriving Repr, DecidableEq

/-- The initial, empty registry. -/
def emptyStore : Store := {}

/-- Read one field of the record at `task_id`, `none` when the record or the
field is absent. -/
def recField (st : Store) (task_id : String) (f : TaskRecord → Option String) : Option String :=
  (lookupTask st.tasks task_id).bind f

/-- Python truthiness filter for an optional string argument: `if message:`
skips both `None` and the empty string. -/
def truthyOpt (m : Option String) : Option String :=
  match m with
  | some s => if s = "" then none else some s
  | none => none

/-- `TaskManager.create_task`: builds the base field map (status `pending`,
timestamps `now`, progress 0, message "Task created"), applies the
caller-supplied `initial_data` overrides on top (`task_data.update`), and
merges the result into the hash at `task:{task_id}`.  There is no existence
check: on an existing identifier `hset` merges into the existing hash. -/
def create_task (st : Store) (task_id : String) (initial_data : TaskRecord) (now : String) : Store :=
  let task_data : TaskRecord :=
    { task_id := some task_id
      status := some "pending"
      created_at := some now
      updated_at := some now
      progress := some "0"
      message := some "Task created" }
  { st with tasks := hsetTask st.tasks task_id (mergeRecord task_data initial_data) }

/-- `TaskManager.task_exists`. -/
def task_exists (st : Store) (task_id : String) : Bool :=
  (lookupTask st.tasks task_id).isSome

/-- `TaskManager.get_task_status`: the whole hash, or `ValueError` when the
key is absent. -/
def get_task_status (st : Store) (task_id : String) : Except String TaskRecord :=
  match lookupTask st.tasks task_id with
  | some r => Except.ok r
  | none => Except.error ("Task " ++ task_id ++ " not found")

/-- `TaskManager.update_task_status`: writes `status` and `updated_at`
always; writes `progress` when the argument is not `None` (`is not None`, so
0 is written); writes `message` only when truthy. -/
def update_task_status (st : Store) (task_id status : String) (progress : Option Int)
    (message : Option String) (now : String) : Store :=
  let update_data : TaskRecord :=
    { status := some status
      updated_at := some now
      progress := progress.map (fun p => toString p)
      message := truthyOpt message }
  { st with tasks := hsetTask st.tasks task_id update_data }

/-- `TaskManager.set_task_progress`: writes `progress` (stringified) and
`updated_at`; writes `message` only when truthy.  No other field is part of
the mapping. -/
def set_task_progress (st : Store) (task_id : String) (progress : Int)
    (message : Option String) (now : String) : Store :=
  let update_data : TaskRecord :=
    { progress := some (toString progress)
      updated_at := some now
      message := truthyOpt message }
  { st with tasks := hsetTask st.tasks task_id update_data }

/-- `TaskManager.set_task_error`: writes `status := "failed"`, `error` and
`updated_at`; writes `error_code` only when truthy. -/
def set_task_error (st : Store) (task_id error : String) (error_code : Option String)
    (now : String) : Store :=
  let update_data : TaskRecord :=
    { status := some "failed"
      error := some error
      updated_at := some now
      error_code := truthyOpt error_code }
  { st with tasks := hsetTask st.tasks task_id update_data }

/-- `TaskManager.set_task_completed`: writes `status := "completed"`,
`progress := "100"`, the completion message, `completed_at` and
`updated_at`; then stores the metadata blob under `task_metadata:{task_id}`
when the metadata dict is truthy (`some m` models a non-empty dict rendered
with `str`, `none` models `None` or an empty dict). -/
def set_task_completed (st : Store) (task_id : String) (metadata : Option String)
    (now : String) : Store :=
  let update_data : TaskRecord :=
    { status := some "completed"
      progress := some "100"
      message := some "Task completed successfully"
      completed_at := some now
      updated_at := some now }
  let st1 : Store := { st with tasks := hsetTask st.tasks task_id update_data }
  match metadata with
  | some m => { st1 with task_metadata := setMeta st1.task_metadata task_id m }
  | none => st1

/-- Loop test of `get_active_task_count`:
`if status and status.decode("utf-8") in ["pending", "processing"]`.  An
absent field (`nil` reply) is falsy and skipped; note that `queued` is not in
the list. -/
def isActiveStatus (s : Option String) : Bool :=
  match s with
  | some v => v == "pending" || v == "processing"
  | none => false

/-- `TaskManager.get_active_task_count`: scan all `task:*` hashes and count
those whose `status` field passes `isActiveStatus`, with a running counter
as in the source loop. -/
def get_active_task_count (st : Store) : Nat :=
  st.tasks.foldl (fun count kv => if isActiveStatus kv.2.status then count + 1 else count) 0

/-- `TaskManager.can_start_new_task`: advisory admission gate,
`get_active_task_count() < settings.max_concurrent_tasks`. -/
def can_start_new_task (st : Store) (max_concurrent_tasks : Nat) : Bool :=
  decide (get_active_task_count st < max_concurrent_tasks)

/-- `TaskManager.delete_task`: removes the task hash and its metadata key. -/
def delete_task (st : Store) (task_id : String) : Store :=
  { tasks := deleteKey st.tasks task_id
    task_metadata := deleteMeta st.task_metadata task_id }

/-!
The worker executor (`src/workers/tasks.py`).  `process_audio_task` runs
inside a `try` block whose `except` clause logs and re-raises; Celery then
invokes `DiarizationTask.on_failure`.  The external analysis collaborator
(`AudioProcessor.process_audio`) is summarised by its observable effect: the
sequence of progress checkpoints it pushes through the supplied callback and
the metadata it returns, or the exception it raises.  The wall clock is
frozen at `now` for the single invocation.
-/

/-- Outcome of the call into the external analysis collaborator: the
progress checkpoints (value, step message) it reports through the callback
(30/50/70/85 in the shipped processor) plus the result metadata blob, or the
message of the exception it raises. -/
inductive ProcOutcome where
  | ok (checkpoints : List (Int × String)) (metadata : Option String)
  | fail (msg : String)
deriving Repr, DecidableEq

/-- Result of one executor body invocation: normal return, an exception
propagating out of the `try` block, or nontermination inside the admission
poll loop. -/
inductive ExecResult where
  | ret (st : Store)
  | raises (st : Store) (msg : String)
  | hangs
deriving Repr, DecidableEq

/-- Defensive record creation at executor entry:
`if not task_manager.task_exists(task_id): task_manager.create_task(task_id)`. -/
def ensure_task (st : Store) (task_id now : String) : Store :=
  if task_exists st task_id then st else create_task st task_id emptyRecord now

/-- Registry effect of the two steps preceding the analysis call: the
transition to `processing` (progress 10) followed by the progress-20
report. -/
def preProcessing (st : Store) (task_id now : String) : Store :=
  set_task_progress
    (update_task_status st task_id "processing" (some 10)
      (some "Starting audio processing...") now)
    task_id 20 (some "Loading audio file...") now

/-- Registry effect of the checkpoint reports the analysis collaborator
pushes through `progress_callback`, in order. -/
def progressSweep (st : Store) (task_id : String) (checkpoints : List (Int × String))
    (now : String) : Store :=
  checkpoints.foldl (fun s c => set_task_progress s task_id c.1 (some c.2) now) st

/-- Registry effect of the whole successful pipeline once admitted:
processing transition, progress 20, collaborator checkpoints, progress 90
(result packaging), then completion. -/
def run_pipeline (st : Store) (task_id : String) (checkpoints : List (Int × String))
    (metadata : Option String) (now : String) : Store :=
  set_task_completed
    (set_task_progress (progressSweep (preProcessing st task_id now) task_id checkpoints now)
      task_id 90 (some "Creating result package...") now)
    task_id metadata now

/-- Registry effect of admission denial at executor entry. -/
def queueFullStore (st : Store) (task_id now : String) : Store :=
  set_task_error st task_id "Too many concurrent tasks. Please try again later."
    (some "QUEUE_FULL") now

/-- The `try/except` wrapper around the outbound callback POST: whether the
POST succeeds or raises, the except clause only logs and execution continues
with the store untouched. -/
def swallowCallback (r : Except String Unit) (st : Store) : ExecResult :=
  match r with
  | Except.ok _ => ExecResult.ret st
  | Except.error _ => ExecResult.ret st

/-- Body of `process_audio_task` (the `try` block), line by line: ensure the
record exists; if admission is denied, mark the task failed with
`QUEUE_FULL` and return; a second, identical admission check guards the
queued-and-poll branch, whose `while not can_start_new_task(): time.sleep(5)`
loop leaves the store untouched, so the loop exits at once if admission
holds at the queued store and otherwise never terminates; then transition to
processing, run the collaborator, package, complete, and deliver the
best-effort callback whose failure is caught and only logged
(`callbackFails` says whether the outbound POST raises; `if callback_url:`
skips `None` and the empty string). -/
def process_audio_task_body (st0 : Store) (task_id audio_file_path : String)
    (callback_url : Option String) (maxConc : Nat) (proc : ProcOutcome)
    (callbackFails : Bool) (now : String) : ExecResult :=
  let _ := audio_file_path
  let st := ensure_task st0 task_id now
  if ¬ can_start_new_task st maxConc then
    ExecResult.ret (queueFullStore st task_id now)
  else
    let polled : Option Store :=
      if ¬ can_start_new_task st maxConc then
        let stq := update_task_status st task_id "queued" none
          (some "Task queued. Waiting for available slot.") now
        if can_start_new_task stq maxConc then some stq else none
      else some st
    match polled with
    | none => ExecResult.hangs
    | some st1 =>
      match proc with
      | ProcOutcome.fail msg => ExecResult.raises (preProcessing st1 task_id now) msg
      | ProcOutcome.ok checkpoints metadata =>
        let st2 := run_pipeline st1 task_id checkpoints metadata now
        let callbackPost : Except String Unit :=
          match callback_url with
          | some url =>
              if url = "" then Except.ok ()
              else if callbackFails then Except.error "callback network failure"
              else Except.ok ()
          | none => Except.ok ()
        swallowCallback callbackPost st2

/-- `DiarizationTask.on_failure`: invoked by Celery when the task body
raises; records the failure under the identifier it is handed, with the
exception text and the fixed code `PROCESSING_FAILED`. -/
def on_failure (st : Store) (task_id msg now : String) : Store :=
  set_task_error st task_id msg (some "PROCESSING_FAILED") now

/-- One whole Celery delivery of `process_audio_task`: run the body and,
when it raises, apply `DiarizationTask.on_failure`.  Celery hands
`on_failure` the delivery id of the message (`self.request.id`), not the
first positional argument of the task function: `delivery_id` carries that
id.  The sole enqueue site (`process_audio_task.delay(task_id, ...)` at
`src/api/routes.py`) passes no `task_id` option to `apply_async`, so Celery
mints a fresh uuid as the delivery id and it never coincides with the
application task identifier generated at the route.  Yields the final store
and whether the invocation returned normally; `none` when the body never
terminates. -/
def run_process_audio_task (st : Store) (task_id audio_file_path : String)
    (callback_url : Option String) (maxConc : Nat) (proc : ProcOutcome)
    (callbackFails : Bool) (delivery_id now : String) : Option (Store × Bool) :=
  match process_audio_task_body st task_id audio_file_path callback_url maxConc proc
      callbackFails now with
  | ExecResult.ret st1 => some (st1, true)
  | ExecResult.raises st1 msg => some (on_failure st1 delivery_id msg now, false)
  | ExecResult.hangs => none

/-!
The file lifecycle manager (`src/services/file_manager.py`).  Paths are
modelled as their segment lists; `p / seg` is `p ++ [seg]`.
-/

/-- The file manager: everything hangs off `settings.storage_base_path`. -/
structure FileManager where
  storage_base_path : List String
deriving Repr, DecidableEq

/-- `self.processed_dir = settings.storage_base_path_obj / "processed"`. -/
def FileManager.processed_dir (fm : FileManager) : List String :=
  fm.storage_base_path ++ ["processed"]

/-- `FileManager.get_processed_path`: the per-task output directory
(created if absent). -/
def FileManager.get_processed_path (fm : FileManager) (task_id : String) : List String :=
  fm.processed_dir ++ [task_id]

/-- Zero-padded rendering of `f"{n:03d}"`. -/
def pad3 (n : Nat) : String :=
  if n < 10 then "00" ++ toString n
  else if n < 100 then "0" ++ toString n
  else toString n

/-- Segment file name `f"segment_{i+1:03d}.wav"` for loop index `i`. -/
def segmentFileName (i : Nat) : String :=
  "segment_" ++ pad3 (i + 1) ++ ".wav"

/-- `FileManager.create_result_zip`: writes `metadata.json` into the
per-task processed directory and produces the archive
`processed/{task_id}/results_{task_id}.zip` holding the metadata document
plus each speaker segment under its speaker subdirectory.
`speaker_segments` carries, per speaker, its number of segment files; the
result is the archive path together with the archive entry names in
insertion order. -/
def FileManager.create_result_zip (fm : FileManager) (task_id : String)
    (speaker_segments : List (String × Nat)) (metadata : String) :
    List String × List String :=
  let _ := metadata
  let processed_dir := fm.get_processed_path task_id
  let zip_path := processed_dir ++ ["results_" ++ task_id ++ ".zip"]
  let entries :=
    "metadata.json" ::
      speaker_segments.flatMap (fun sp =>
        (List.range sp.2).map (fun i => sp.1 ++ "/" ++ segmentFileName i))
  (zip_path, entries)

/-- `FileManager.get_result_zip`: the retrieval path
`self.processed_dir / task_id / f"results_{task_id}.zip"`. -/
def FileManager.get_result_zip (fm : FileManager) (task_id : String) : List String :=
  (fm.processed_dir ++ [task_id]) ++ ["results_" ++ task_id ++ ".zip"]

/-- One entry of the processed directory listing seen by the retention
sweep: directory name, whether it is a directory, last-modified time in
seconds. -/
structure DirEntry where
  name : String
  is_dir : Bool
  mtime : Nat
deriving Repr, DecidableEq

/-- `FileManager.cleanup_old_tasks`: resolves the default retention window
(`if days is None: days = settings.result_retention_days`), then evaluates
`datetime.now().timestamp()` to build the cutoff.  The module
`src/services/file_manager.py` imports json, shutil, zipfile, pathlib.Path,
typing, aiofiles, the settings object and the logger — but not `datetime` —
so this name lookup raises `NameError` before any directory is scanned, and
no directory is ever deleted or retained by inspection. -/
def cleanup_old_tasks (processed_entries : List DirEntry) (days : Option Nat)
    (result_retention_days : Nat) : Except String (List DirEntry) :=
  let _ := processed_entries
  let _days : Nat := days.getD result_retention_days
  Except.error "NameError: name datetime is not defined"

/-!
A small language of registry write operations, used to state
sequence-of-operations invariants about the record fields.
-/

/-- One registry write, as issued through `TaskManager` (each op carries the
clock reading observed at its call). -/
inductive RegOp where
  | createOp (task_id : String) (initial_data : TaskRecord) (now : String)
  | updateStatus (task_id status : String) (progress : Option Int)
      (message : Option String) (now : String)
  | setProgress (task_id : String) (progress : Int) (message : Option String) (now : String)
  | setError (task_id error : String) (error_code : Option String) (now : String)
  | setCompleted (task_id : String) (metadata : Option String) (now : String)
  | deleteOp (task_id : String)
deriving Repr, DecidableEq

/-- Interpretation of one registry write. -/
def applyOp (st : Store) : RegOp → Store
  | RegOp.createOp id init now => create_task st id init now
  | RegOp.updateStatus id s p m now => update_task_status st id s p m now
  | RegOp.setProgress id p m now => set_task_progress st id p m now
  | RegOp.setError id e c now => set_task_error st id e c now
  | RegOp.setCompleted id meta now => set_task_completed st id meta now
  | RegOp.deleteOp id => delete_task st id

/-- Interpretation of a sequence of registry writes, oldest first. -/
def applyOps (st : Store) (ops : List RegOp) : Store :=
  ops.foldl applyOp st

/-- Whether an op is a `set_task_completed` on the given identifier. -/
def isSetCompletedFor (task_id : String) : RegOp → Bool
  | RegOp.setCompleted id2 _ _ => id2 == task_id
  | _ => false

/-- Whether a create op refrains from injecting a `completed_at` override
through its caller-supplied `initial_data` (every call site in the engine
does). -/
def opCreateKeepsCompletedAt : RegOp → Bool
  | RegOp.createOp _ init _ => decide (init.completed_at = none)
  | _ => true

/-!
Concrete registry snapshots used to evaluate the definitions.
-/

/-- A registry with one `processing` task and one `queued` task. -/
def exStoreBusy : Store :=
  { tasks := [("task-a", { task_id := some "task-a", status := some "processing" }),
              ("task-b", { task_id := some "task-b", status := some "queued" })] }

/-- A registry holding a single `queued` task. -/
def exStoreQueued : Store :=
  { tasks := [("task-q", { task_id := some "task-q", status := some "queued" })] }

/-- A registry holding a single `failed` task. -/
def exStoreFailed : Store :=
  { tasks := [("task-f", { task_id := some "task-f", status := some "failed",
                           error := some "boom" })] }

/-- A finished task record. -/
def exRecDone : TaskRecord :=
  { task_id := some "task-c", status := some "completed",
    progress := some "100", completed_at := some "T1" }

/-- A registry holding a single `completed` task. -/
def exStoreDone : Store :=
  { tasks := [("task-c", exRecDone)] }

/-- A create-complete-fail operation sequence on one task. -/
def exOpsC5 : List RegOp :=
  [RegOp.createOp "task-x" emptyRecord "T0",
   RegOp.setCompleted "task-x" none "T1",
   RegOp.setError "task-x" "late failure" none "T2"]

/-- Written from the spec wording, for comparison with the code: the number
of records whose status lies in the set of `pending`, `queued` and
`processing`. -/
def spec_count_active (st : Store) : Nat :=
  st.tasks.countP (fun kv =>
    kv.2.status == some "pending" || kv.2.status == some "queued" ||
      kv.2.status == some "processing")

/-!
Basic lemmas about the store primitives.
-/

@[simp]
theorem oupd_some (v : String) (o : Option String) : oupd (some v) o = some v := rfl

@[simp]
theorem oupd_none (o : Option String) : oupd none o = o := rfl

@[simp]
theorem mergeRecord_task_id (r m : TaskRecord) :
    (mergeRecord r m).task_id = oupd m.task_id r.task_id := rfl

@[simp]
theorem mergeRecord_status (r m : TaskRecord) :
    (mergeRecord r m).status = oupd m.status r.status := rfl

@[simp]
theorem mergeRecord_progress (r m : TaskRecord) :
    (mergeRecord r m).progress = oupd m.progress r.progress := rfl

@[simp]
theorem mergeRecord_message (r m : TaskRecord) :
    (mergeRecord r m).message = oupd m.message r.message := rfl

@[simp]
theorem mergeRecord_error (r m : TaskRecord) :
    (mergeRecord r m).error = oupd m.error r.error := rfl

@[simp]
theorem mergeRecord_error_code (r m : TaskRecord) :
    (mergeRecord r m).error_code = oupd m.error_code r.error_code := rfl

@[simp]
theorem mergeRecord_created_at (r m : TaskRecord) :
    (mergeRecord r m).created_at = oupd m.created_at r.created_at := rfl

@[simp]
theorem mergeRecord_updated_at (r m : TaskRecord) :
    (mergeRecord r m).updated_at = oupd m.updated_at r.updated_at := rfl

@[simp]
theorem mergeRecord_completed_at (r m : TaskRecord) :
    (mergeRecord r m).completed_at = oupd m.completed_at r.completed_at := rfl

@[simp]
theorem mergeRecord_original_filename (r m : TaskRecord) :
    (mergeRecord r m).original_filename = oupd m.original_filename r.original_filename := rfl

@[simp]
theorem mergeRecord_callback_url (r m : TaskRecord) :
    (mergeRecord r m).callback_url = oupd m.callback_url r.callback_url := rfl

theorem lookupTask_hsetTask_self (l : List (String × TaskRecord)) (k : String) (m : TaskRecord) :
    lookupTask (hsetTask l k m) k =
      some (mergeRecord ((lookupTask l k).getD emptyRecord) m) := by
  induction l with
  | nil => simp [hsetTask, lookupTask]
  | cons hd tl ih =>
    obtain ⟨k1, r1⟩ := hd
    by_cases h : k1 = k
    · subst h
      simp [hsetTask, lookupTask]
    · simp [hsetTask, lookupTask, h, ih]

theorem lookupTask_hsetTask_other (l : List (String × TaskRecord)) (k k0 : String)
    (m : TaskRecord) (h : k0 ≠ k) :
    lookupTask (hsetTask l k m) k0 = lookupTask l k0 := by
  induction l with
  | nil => simp [hsetTask, lookupTask, Ne.symm h]
  | cons hd tl ih =>
    obtain ⟨k1, r1⟩ := hd
    by_cases h1 : k1 = k
    · subst h1
      simp [hsetTask, lookupTask, Ne.symm h]
    · by_cases h2 : k1 = k0
      · subst h2
        simp [hsetTask, lookupTask, h1]
      · simp [hsetTask, lookupTask, h1, h2, ih]

theorem lookupTask_deleteKey_self (l : List (String × TaskRecord)) (k : String) :
    lookupTask (deleteKey l k) k = none := by
  induction l with
  | nil => simp [deleteKey, lookupTask]
  | cons hd tl ih =>
    obtain ⟨k1, r1⟩ := hd
    by_cases h : k1 = k
    · simp [deleteKey, h, ih]
    · simp [deleteKey, lookupTask, h, ih]

theorem lookupTask_deleteKey_other (l : List (String × TaskRecord)) (k k0 : String)
    (h : k0 ≠ k) :
    lookupTask (deleteKey l k) k0 = lookupTask l k0 := by
  induction l with
  | nil => simp [deleteKey]
  | cons hd tl ih =>
    obtain ⟨k1, r1⟩ := hd
    by_cases h1 : k1 = k
    · subst h1
      simp [deleteKey, lookupTask, Ne.symm h, ih]
    · simp [deleteKey, lookupTask, h1, ih]

@[simp]
theorem oupd_none_right (o : Option String) : oupd o none = o := by
  cases o <;> rfl

@[simp]
theorem swallowCallback_eq (r : Except String Unit) (st : Store) :
    swallowCallback r st = ExecResult.ret st := by
  cases r <;> rfl

/-- Effect of `hset` on the projection `f` of the looked-up hash:
the mapping field overrides on the written key, everything else is kept.
The projection hypotheses hold for every field of `TaskRecord`. -/
theorem bindLookup_hset (f : TaskRecord → Option String)
    (hf : ∀ r m, f (mergeRecord r m) = oupd (f m) (f r))
    (hf0 : f emptyRecord = none)
    (l : List (String × TaskRecord)) (k0 : String) (m : TaskRecord) (k : String) :
    (lookupTask (hsetTask l k0 m) k).bind f =
      if k = k0 then oupd (f m) ((lookupTask l k).bind f)
      else (lookupTask l k).bind f := by
  by_cases h : k = k0
  · subst h
    rw [if_pos rfl, lookupTask_hsetTask_self]
    cases hl : lookupTask l k with
    | none => simp [hf, hf0]
    | some r => simp [hf]
  · rw [if_neg h, lookupTask_hsetTask_other _ _ _ _ h]

/-- Store-level form of `bindLookup_hset`. -/
theorem recField_hset (f : TaskRecord → Option String)
    (hf : ∀ r m, f (mergeRecord r m) = oupd (f m) (f r))
    (hf0 : f emptyRecord = none)
    (st : Store) (k0 : String) (m : TaskRecord) (k : String) :
    recField { st with tasks := hsetTask st.tasks k0 m } k f =
      if k = k0 then oupd (f m) (recField st k f) else recField st k f := by
  exact bindLookup_hset f hf hf0 st.tasks k0 m k

/-- The running-counter loop is a `countP`. -/
theorem count_loop_eq_countP {α : Type} (p : α → Bool) (l : List α) (n : Nat) :
    l.foldl (fun c x => if p x then c + 1 else c) n = n + l.countP p := by
  induction l generalizing n with
  | nil => simp
  | cons hd tl ih =>
    by_cases h : p hd
    · simp [List.countP_cons, h, ih]
      omega
    · simp [List.countP_cons, h, ih]

/-- The membership test of the counting loop, rewritten through `BEq`. -/
theorem isActiveStatus_eq (s : Option String) :
    isActiveStatus s = (s == some "pending" || s == some "processing") := by
  cases s <;> rfl

/-!
Field effects of the individual registry operations.
-/

theorem set_task_progress_status (st : Store) (task_id : String) (p : Int)
    (m : Option String) (now k : String) :
    recField (set_task_progress st task_id p m now) k TaskRecord.status =
      recField st k TaskRecord.status := by
  simp only [set_task_progress, recField]
  rw [bindLookup_hset TaskRecord.status (fun _ _ => rfl) rfl]
  by_cases h : k = task_id <;> simp [h, oupd]

theorem set_task_error_status_self (st : Store) (task_id e : String)
    (c : Option String) (now : String) :
    recField (set_task_error st task_id e c now) task_id TaskRecord.status =
      some "failed" := by
  simp only [set_task_error, recField]
  rw [bindLookup_hset TaskRecord.status (fun _ _ => rfl) rfl]
  simp [oupd]

theorem set_task_error_error_self (st : Store) (task_id e : String)
    (c : Option String) (now : String) :
    recField (set_task_error st task_id e c now) task_id TaskRecord.error = some e := by
  simp only [set_task_error, recField]
  rw [bindLookup_hset TaskRecord.error (fun _ _ => rfl) rfl]
  simp [oupd]

theorem set_task_error_error_code_self (st : Store) (task_id e : String)
    (c : Option String) (now : String) :
    recField (set_task_error st task_id e c now) task_id TaskRecord.error_code =
      oupd (truthyOpt c) (recField st task_id TaskRecord.error_code) := by
  simp only [set_task_error, recField]
  rw [bindLookup_hset TaskRecord.error_code (fun _ _ => rfl) rfl]
  simp

theorem update_task_status_status_self (st : Store) (task_id s : String)
    (p : Option Int) (m : Option String) (now : String) :
    recField (update_task_status st task_id s p m now) task_id TaskRecord.status =
      some s := by
  simp only [update_task_status, recField]
  rw [bindLookup_hset TaskRecord.status (fun _ _ => rfl) rfl]
  simp [oupd]

theorem set_task_error_other (st : Store) (task_id e : String) (c : Option String)
    (now k : String) (h : k ≠ task_id) (f : TaskRecord → Option String)
    (hf : ∀ r mm, f (mergeRecord r mm) = oupd (f mm) (f r))
    (hf0 : f emptyRecord = none) :
    recField (set_task_error st task_id e c now) k f = recField st k f := by
  simp only [set_task_error, recField]
  rw [bindLookup_hset f hf hf0, if_neg h]

/-- After the processing transition and the progress-20 report, the record
at the task identifier holds status `processing`. -/
theorem preProcessing_status_self (st : Store) (task_id now : String) :
    recField (preProcessing st task_id now) task_id TaskRecord.status =
      some "processing" := by
  simp only [preProcessing]
  rw [set_task_progress_status]
  exact update_task_status_status_self st task_id "processing" (some 10)
    (some "Starting audio processing...") now

theorem set_task_completed_tasks (st : Store) (task_id : String)
    (meta : Option String) (now : String) :
    (set_task_completed st task_id meta now).tasks =
      hsetTask st.tasks task_id
        { status := some "completed"
          progress := some "100"
          message := some "Task completed successfully"
          completed_at := some now
          updated_at := some now } := by
  cases meta <;> rfl

theorem set_task_completed_status_self (st : Store) (task_id : String)
    (meta : Option String) (now : String) :
    recField (set_task_completed st task_id meta now) task_id TaskRecord.status =
      some "completed" := by
  simp only [recField, set_task_completed_tasks]
  rw [bindLookup_hset TaskRecord.status (fun _ _ => rfl) rfl]
  simp [oupd]

theorem set_task_completed_completed_at_self (st : Store) (task_id : String)
    (meta : Option String) (now : String) :
    recField (set_task_completed st task_id meta now) task_id TaskRecord.completed_at =
      some now := by
  simp only [recField, set_task_completed_tasks]
  rw [bindLookup_hset TaskRecord.completed_at (fun _ _ => rfl) rfl]
  simp [oupd]

/-!
Control-flow reductions of the executor.
-/

theorem process_audio_task_body_denied (st0 : Store) (task_id path : String)
    (cb : Option String) (maxConc : Nat) (proc : ProcOutcome) (cbf : Bool) (now : String)
    (h : can_start_new_task (ensure_task st0 task_id now) maxConc = false) :
    process_audio_task_body st0 task_id path cb maxConc proc cbf now =
      ExecResult.ret (queueFullStore (ensure_task st0 task_id now) task_id now) := by
  simp only [process_audio_task_body, h]
  simp

theorem process_audio_task_body_granted_ok (st0 : Store) (task_id path : String)
    (cb : Option String) (maxConc : Nat) (cps : List (Int × String))
    (meta : Option String) (cbf : Bool) (now : String)
    (h : can_start_new_task (ensure_task st0 task_id now) maxConc = true) :
    process_audio_task_body st0 task_id path cb maxConc (ProcOutcome.ok cps meta) cbf now =
      ExecResult.ret (run_pipeline (ensure_task st0 task_id now) task_id cps meta now) := by
  simp only [process_audio_task_body, h]
  simp

theorem process_audio_task_body_granted_fail (st0 : Store) (task_id path : String)
    (cb : Option String) (maxConc : Nat) (msg : String) (cbf : Bool) (now : String)
    (h : can_start_new_task (ensure_task st0 task_id now) maxConc = true) :
    process_audio_task_body st0 task_id path cb maxConc (ProcOutcome.fail msg) cbf now =
      ExecResult.raises (preProcessing (ensure_task st0 task_id now) task_id now) msg := by
  simp only [process_audio_task_body, h]
  simp

theorem run_process_audio_task_denied (st0 : Store) (task_id path : String)
    (cb : Option String) (maxConc : Nat) (proc : ProcOutcome) (cbf : Bool)
    (did now : String)
    (h : can_start_new_task (ensure_task st0 task_id now) maxConc = false) :
    run_process_audio_task st0 task_id path cb maxConc proc cbf did now =
      some (queueFullStore (ensure_task st0 task_id now) task_id now, true) := by
  rw [run_process_audio_task, process_audio_task_body_denied st0 task_id path cb maxConc proc cbf now h]

theorem run_process_audio_task_granted_ok (st0 : Store) (task_id path : String)
    (cb : Option String) (maxConc : Nat) (cps : List (Int × String))
    (meta : Option String) (cbf : Bool) (did now : String)
    (h : can_start_new_task (ensure_task st0 task_id now) maxConc = true) :
    run_process_audio_task st0 task_id path cb maxConc (ProcOutcome.ok cps meta) cbf did now =
      some (run_pipeline (ensure_task st0 task_id now) task_id cps meta now, true) := by
  rw [run_process_audio_task,
    process_audio_task_body_granted_ok st0 task_id path cb maxConc cps meta cbf now h]

theorem run_process_audio_task_granted_fail (st0 : Store) (task_id path : String)
    (cb : Option String) (maxConc : Nat) (msg : String) (cbf : Bool) (did now : String)
    (h : can_start_new_task (ensure_task st0 task_id now) maxConc = true) :
    run_process_audio_task st0 task_id path cb maxConc (ProcOutcome.fail msg) cbf did now =
      some (on_failure (preProcessing (ensure_task st0 task_id now) task_id now) did msg now,
        false) := by
  rw [run_process_audio_task,
    process_audio_task_body_granted_fail st0 task_id path cb maxConc msg cbf now h]

theorem run_process_audio_task_ne_none (st0 : Store) (task_id path : String)
    (cb : Option String) (maxConc : Nat) (proc : ProcOutcome) (cbf : Bool)
    (did now : String) :
    run_process_audio_task st0 task_id path cb maxConc proc cbf did now ≠ none := by
  cases h : can_start_new_task (ensure_task st0 task_id now) maxConc
  · rw [run_process_audio_task_denied st0 task_id path cb maxConc proc cbf did now h]
    simp
  · cases proc with
    | ok cps meta =>
      rw [run_process_audio_task_granted_ok st0 task_id path cb maxConc cps meta cbf did now h]
      simp
    | fail msg =>
      rw [run_process_audio_task_granted_fail st0 task_id path cb maxConc msg cbf did now h]
      simp

/-- Frame of `set_task_progress` for any record field absent from its
mapping. -/
theorem set_task_progress_untouched (st : Store) (task_id : String) (p : Int)
    (m : Option String) (now k : String) (f : TaskRecord → Option String)
    (hf : ∀ r mm, f (mergeRecord r mm) = oupd (f mm) (f r))
    (hf0 : f emptyRecord = none)
    (hm : ∀ q u w, f { progress := q, updated_at := u, message := w } = none) :
    recField (set_task_progress st task_id p m now) k f = recField st k f := by
  simp only [set_task_progress, recField]
  rw [bindLookup_hset f hf hf0]
  by_cases h : k = task_id
  · rw [if_pos h, hm]
    simp
  · rw [if_neg h]

/-!
Claim theorems.
-/

/-- C9: for every task identifier, the archive path produced by
`create_result_zip` equals the path computed by `get_result_zip`; the
archive name is a deterministic function of the task identifier alone, so
the retrieval path locates the packaged archive without a lookup table. -/
theorem create_result_zip_path_eq_get_result_zip :
    ∀ (fm : FileManager) (task_id : String) (segs : List (String × Nat)) (meta : String),
      (FileManager.create_result_zip fm task_id segs meta).1 =
        FileManager.get_result_zip fm task_id := by
  intro fm task_id segs meta
  simp [FileManager.create_result_zip, FileManager.get_result_zip,
    FileManager.get_processed_path]

/-- C8: the retention sweep `cleanup_old_tasks` never reaches its scan loop:
because `src/services/file_manager.py` does not import `datetime`, every
invocation raises `NameError` right after resolving the retention window, so
no expired directory is deleted and no young directory is inspected,
contradicting the claim that the sweep runs without raising an error. -/
theorem cleanup_old_tasks_raises_name_error :
    ∀ (entries : List DirEntry) (days : Option Nat) (dflt : Nat),
      cleanup_old_tasks entries days dflt =
        Except.error "NameError: name datetime is not defined" := by
  intro entries days dflt
  rfl

/-- C2 is refuted at a registry holding a single record whose status is
`queued`: `get_active_task_count` returns 0 while the spec count over the
set of pending, queued and processing records is 1. -/
theorem count_active_ignores_queued_counterexample :
    get_active_task_count exStoreQueued = 0 ∧ spec_count_active exStoreQueued = 1 := by
  constructor <;> rfl

/-- C2 (amended): `get_active_task_count` returns exactly the number of
records whose status is `pending` or `processing`; records in `queued`,
`completed` or `failed` are never counted. -/
theorem get_active_task_count_counts_pending_processing :
    ∀ st : Store,
      get_active_task_count st =
        st.tasks.countP (fun kv =>
          kv.2.status == some "pending" || kv.2.status == some "processing") := by
  intro st
  rw [get_active_task_count, count_loop_eq_countP]
  have hp : (fun kv : String × TaskRecord => isActiveStatus kv.2.status) =
      fun kv : String × TaskRecord =>
        (kv.2.status == some "pending" || kv.2.status == some "processing") :=
    funext fun kv => isActiveStatus_eq kv.2.status
  rw [hp]
  simp

/-- C3 is refuted on the registry interface: `update_task_status` carries no
terminal-status guard, so invoking it with status `processing` on a record
already in the terminal status `failed` reverts that record to
`processing`. -/
theorem update_task_status_reverts_failed_counterexample :
    recField exStoreFailed "task-f" TaskRecord.status = some "failed" ∧
    recField (update_task_status exStoreFailed "task-f" "processing" none none "T3")
        "task-f" TaskRecord.status = some "processing" := by
  constructor <;> rfl

/-- C3 (amended): a stray progress update issued by the executor
(`set_task_progress`) never writes the status field, so it cannot revert a
terminal `failed` or `completed` status; the registry offers no guard
beyond that — `update_task_status` itself can overwrite a terminal status
with a non-terminal one. -/
theorem progress_updates_never_change_status :
    ∀ (st : Store) (task_id : String) (p : Int) (m : Option String) (now k : String),
      recField (set_task_progress st task_id p m now) k TaskRecord.status =
        recField st k TaskRecord.status := by
  intro st task_id p m now k
  exact set_task_progress_status st task_id p m now k

/-- C10: `set_task_progress` modifies only the progress, updated_at and
(when supplied and truthy) message fields of the addressed record: records
under other keys are untouched, the status, error, error_code, created_at,
completed_at, original_filename, callback_url and task_id fields are
preserved for every key, the message field is preserved when no message is
supplied, and the metadata key space is untouched. -/
theorem set_task_progress_frame :
    ∀ (st : Store) (task_id : String) (p : Int) (m : Option String) (now k : String),
      (k ≠ task_id →
        lookupTask (set_task_progress st task_id p m now).tasks k =
          lookupTask st.tasks k) ∧
      recField (set_task_progress st task_id p m now) k TaskRecord.status =
        recField st k TaskRecord.status ∧
      recField (set_task_progress st task_id p m now) k TaskRecord.error =
        recField st k TaskRecord.error ∧
      recField (set_task_progress st task_id p m now) k TaskRecord.error_code =
        recField st k TaskRecord.error_code ∧
      recField (set_task_progress st task_id p m now) k TaskRecord.created_at =
        recField st k TaskRecord.created_at ∧
      recField (set_task_progress st task_id p m now) k TaskRecord.completed_at =
        recField st k TaskRecord.completed_at ∧
      recField (set_task_progress st task_id p m now) k TaskRecord.original_filename =
        recField st k TaskRecord.original_filename ∧
      recField (set_task_progress st task_id p m now) k TaskRecord.callback_url =
        recField st k TaskRecord.callback_url ∧
      recField (set_task_progress st task_id p m now) k TaskRecord.task_id =
        recField st k TaskRecord.task_id ∧
      (m = none →
        recField (set_task_progress st task_id p m now) k TaskRecord.message =
          recField st k TaskRecord.message) ∧
      (set_task_progress st task_id p m now).task_metadata = st.task_metadata := by
  intro st task_id p m now k
  refine ⟨?_, ?_, ?_, ?_, ?_, ?_, ?_, ?_, ?_, ?_, rfl⟩
  · intro h
    simp only [set_task_progress]
    exact lookupTask_hsetTask_other st.tasks task_id k _ h
  · exact set_task_progress_status st task_id p m now k
  · exact set_task_progress_untouched st task_id p m now k TaskRecord.error
      (fun _ _ => rfl) rfl (fun _ _ _ => rfl)
  · exact set_task_progress_untouched st task_id p m now k TaskRecord.error_code
      (fun _ _ => rfl) rfl (fun _ _ _ => rfl)
  · exact set_task_progress_untouched st task_id p m now k TaskRecord.created_at
      (fun _ _ => rfl) rfl (fun _ _ _ => rfl)
  · exact set_task_progress_untouched st task_id p m now k TaskRecord.completed_at
      (fun _ _ => rfl) rfl (fun _ _ _ => rfl)
  · exact set_task_progress_untouched st task_id p m now k TaskRecord.original_filename
      (fun _ _ => rfl) rfl (fun _ _ _ => rfl)
  · exact set_task_progress_untouched st task_id p m now k TaskRecord.callback_url
      (fun _ _ => rfl) rfl (fun _ _ _ => rfl)
  · exact set_task_progress_untouched st task_id p m now k TaskRecord.task_id
      (fun _ _ => rfl) rfl (fun _ _ _ => rfl)
  · intro hm
    subst hm
    simp only [set_task_progress, recField]
    rw [bindLookup_hset TaskRecord.message (fun _ _ => rfl) rfl]
    by_cases h : k = task_id <;> simp [h, truthyOpt]

/-- Witness for the frame of `set_task_progress` at a concrete registry:
a progress report on the failed record changes neither the record under the
other key nor the message field of the addressed record. -/
theorem set_task_progress_frame_witness :
    lookupTask (set_task_progress exStoreFailed "task-f" 42 none "T4").tasks "task-z" =
      lookupTask exStoreFailed.tasks "task-z" ∧
    recField (set_task_progress exStoreFailed "task-f" 42 none "T4") "task-f"
        TaskRecord.message =
      recField exStoreFailed "task-f" TaskRecord.message :=
  ⟨(set_task_progress_frame exStoreFailed "task-f" 42 none "T4" "task-z").1 (by decide),
   (set_task_progress_frame exStoreFailed "task-f" 42 none "T4"
      "task-f").2.2.2.2.2.2.2.2.2.1 rfl⟩

/-- C7 is refuted at a registry that already holds a completed record under
the created identifier: `create_task` raises no error, resets the status to
`pending` (so the existing record is changed), and retains the stale
`completed_at` field. -/
theorem create_task_on_existing_counterexample :
    recField (create_task exStoreDone "task-c" emptyRecord "T2") "task-c"
        TaskRecord.status = some "pending" ∧
    recField (create_task exStoreDone "task-c" emptyRecord "T2") "task-c"
        TaskRecord.completed_at = some "T1" ∧
    lookupTask (create_task exStoreDone "task-c" emptyRecord "T2").tasks "task-c" ≠
      some exRecDone := by
  refine ⟨rfl, rfl, ?_⟩
  decide

/-- C7 (amended): `create_task` performs no existence check and cannot fail:
invoked on an identifier that already has a record, it merges the base
fields (status `pending`, fresh timestamps, progress 0, creation message)
and the caller overrides into the existing hash, leaving every field
outside that mapping (such as `completed_at`) unchanged. -/
theorem create_task_merges_into_existing :
    ∀ (st : Store) (task_id : String) (init : TaskRecord) (now : String) (r : TaskRecord),
      lookupTask st.tasks task_id = some r →
      lookupTask (create_task st task_id init now).tasks task_id =
        some (mergeRecord r (mergeRecord
          { task_id := some task_id
            status := some "pending"
            created_at := some now
            updated_at := some now
            progress := some "0"
            message := some "Task created" } init)) := by
  intro st task_id init now r h
  simp only [create_task]
  rw [lookupTask_hsetTask_self, h]
  rfl

/-- Witness: creating over the existing completed record merges the base
fields into it. -/
theorem create_task_merges_into_existing_witness :
    lookupTask (create_task exStoreDone "task-c" emptyRecord "T2").tasks "task-c" =
      some (mergeRecord exRecDone (mergeRecord
        { task_id := some "task-c"
          status := some "pending"
          created_at := some "T2"
          updated_at := some "T2"
          progress := some "0"
          message := some "Task created" } emptyRecord)) :=
  create_task_merges_into_existing exStoreDone "task-c" emptyRecord "T2" exRecDone rfl

/-- A single registry write other than a `set_task_completed` on the given
identifier either keeps the record's `completed_at` field or (deletion)
erases it; it never introduces one, provided a create op does not inject a
caller-supplied override. -/
theorem completed_at_applyOp (st : Store) (op : RegOp) (id : String)
    (hnc : isSetCompletedFor id op = false)
    (hcr : opCreateKeepsCompletedAt op = true) :
    recField (applyOp st op) id TaskRecord.completed_at =
        recField st id TaskRecord.completed_at ∨
      recField (applyOp st op) id TaskRecord.completed_at = none := by
  cases op with
  | createOp tid init nw =>
    left
    have hinit : init.completed_at = none := of_decide_eq_true hcr
    simp only [applyOp, create_task, recField]
    rw [bindLookup_hset TaskRecord.completed_at (fun _ _ => rfl) rfl]
    by_cases h : id = tid
    · rw [if_pos h]
      simp [hinit]
    · rw [if_neg h]
  | updateStatus tid s p m nw =>
    left
    simp only [applyOp, update_task_status, recField]
    rw [bindLookup_hset TaskRecord.completed_at (fun _ _ => rfl) rfl]
    by_cases h : id = tid <;> simp [h]
  | setProgress tid p m nw =>
    left
    simp only [applyOp, set_task_progress, recField]
    rw [bindLookup_hset TaskRecord.completed_at (fun _ _ => rfl) rfl]
    by_cases h : id = tid <;> simp [h]
  | setError tid e c nw =>
    left
    simp only [applyOp, set_task_error, recField]
    rw [bindLookup_hset TaskRecord.completed_at (fun _ _ => rfl) rfl]
    by_cases h : id = tid <;> simp [h]
  | setCompleted tid meta nw =>
    left
    have hne : id ≠ tid := by
      intro hh
      subst hh
      simp [isSetCompletedFor] at hnc
    simp only [applyOp, recField, set_task_completed_tasks]
    rw [bindLookup_hset TaskRecord.completed_at (fun _ _ => rfl) rfl, if_neg hne]
  | deleteOp tid =>
    by_cases h : id = tid
    · right
      subst h
      simp [applyOp, delete_task, recField, lookupTask_deleteKey_self]
    · left
      simp [applyOp, delete_task, recField, lookupTask_deleteKey_other _ _ _ h]

/-- Over a sequence of registry writes with no `set_task_completed` on the
identifier, `completed_at` is either inherited from the initial store or
absent. -/
theorem completed_at_applyOps (ops : List RegOp) (st : Store) (id : String)
    (h1 : ∀ op ∈ ops, isSetCompletedFor id op = false)
    (h2 : ∀ op ∈ ops, opCreateKeepsCompletedAt op = true) :
    recField (applyOps st ops) id TaskRecord.completed_at =
        recField st id TaskRecord.completed_at ∨
      recField (applyOps st ops) id TaskRecord.completed_at = none := by
  induction ops generalizing st with
  | nil => left; rfl
  | cons op rest ih =>
    have hop := completed_at_applyOp st op id (h1 op (List.mem_cons_self op rest))
      (h2 op (List.mem_cons_self op rest))
    have hrest := ih (applyOp st op)
      (fun o ho => h1 o (List.mem_cons_of_mem op ho))
      (fun o ho => h2 o (List.mem_cons_of_mem op ho))
    have happ : applyOps st (op :: rest) = applyOps (applyOp st op) rest := rfl
    rw [happ]
    rcases hrest with he | hn
    · rw [he]
      exact hop
    · right
      exact hn

/-- C5 is refuted by a create, complete, fail sequence on one record: after
`set_task_error` the status is `failed` yet `completed_at` (written at
completion time) is still present, so `completed_at` presence does not
imply status `completed`. -/
theorem completed_at_survives_failure_counterexample :
    recField (applyOps emptyStore exOpsC5) "task-x" TaskRecord.status = some "failed" ∧
    recField (applyOps emptyStore exOpsC5) "task-x" TaskRecord.completed_at = some "T1" := by
  constructor <;> rfl

/-- C5 (amended): `set_task_completed` does set `completed_at`, and it is
the only registry operation that ever writes it (the engine never injects
it through create overrides), so a record carries `completed_at` only if a
`set_task_completed` for its identifier occurs in the operation sequence;
however a later `set_task_error` or `update_task_status` moves the status
away from `completed` while retaining `completed_at`, so presence of
`completed_at` witnesses a past completion, not a current `completed`
status. -/
theorem completed_at_only_from_set_task_completed :
    ∀ (ops : List RegOp) (id : String),
      ops.all opCreateKeepsCompletedAt = true →
      recField (applyOps emptyStore ops) id TaskRecord.completed_at ≠ none →
      ops.any (isSetCompletedFor id) = true := by
  intro ops id hall hne
  have hall2 : ∀ op ∈ ops, opCreateKeepsCompletedAt op = true := by
    intro op ho
    exact List.all_eq_true.mp hall op ho
  by_contra hany
  have h1 : ∀ op ∈ ops, isSetCompletedFor id op = false := by
    intro op ho
    cases hh : isSetCompletedFor id op
    · rfl
    · exact absurd (List.any_eq_true.mpr ⟨op, ho, hh⟩) hany
  rcases completed_at_applyOps ops emptyStore id h1 hall2 with he | hn
  · exact hne (by rw [he]; rfl)
  · exact hne hn

/-- Witness: on the create, complete, fail sequence the provenance theorem
finds the completing operation. -/
theorem completed_at_only_from_set_task_completed_witness :
    exOpsC5.any (isSetCompletedFor "task-x") = true :=
  completed_at_only_from_set_task_completed exOpsC5 "task-x" (by decide) (by decide)

/-- C1 is refuted at a registry at its concurrency ceiling: with
`max_concurrent_tasks = 1` and one `processing` record, the executor
invoked on the queued task marks it `failed` with error code `QUEUE_FULL`
instead of transitioning it to `queued` and polling. -/
theorem queue_full_counterexample :
    (run_process_audio_task exStoreBusy "task-b" "/data/audio.wav" none 1
        (ProcOutcome.ok [] none) false "celery-d0" "T1").map
        (fun p => recField p.1 "task-b" TaskRecord.status) = some (some "failed") ∧
    (run_process_audio_task exStoreBusy "task-b" "/data/audio.wav" none 1
        (ProcOutcome.ok [] none) false "celery-d0" "T1").map
        (fun p => recField p.1 "task-b" TaskRecord.error_code) =
      some (some "QUEUE_FULL") := by
  constructor <;> rfl

/-- C1 (amended): when the executor finds admission denied at entry it marks
the task `failed` with the message about too many concurrent tasks and the
error code `QUEUE_FULL` and returns normally; the queued-and-poll branch is
dead code (it sits behind a second admission check identical to the first,
so the executor never hangs in the poll loop and never leaves the record in
`queued`). -/
theorem admission_denied_fails_queue_full :
    ∀ (st : Store) (task_id path : String) (cb : Option String) (maxConc : Nat)
      (proc : ProcOutcome) (cbf : Bool) (delivery_id now : String),
      run_process_audio_task st task_id path cb maxConc proc cbf delivery_id now ≠ none ∧
      (can_start_new_task (ensure_task st task_id now) maxConc = false →
        (run_process_audio_task st task_id path cb maxConc proc cbf delivery_id now).map
            (fun p => recField p.1 task_id TaskRecord.status) = some (some "failed") ∧
        (run_process_audio_task st task_id path cb maxConc proc cbf delivery_id now).map
            (fun p => recField p.1 task_id TaskRecord.error) =
          some (some "Too many concurrent tasks. Please try again later.") ∧
        (run_process_audio_task st task_id path cb maxConc proc cbf delivery_id now).map
            (fun p => recField p.1 task_id TaskRecord.error_code) =
          some (some "QUEUE_FULL") ∧
        (run_process_audio_task st task_id path cb maxConc proc cbf delivery_id now).map
            Prod.snd = some true) := by
  intro st task_id path cb maxConc proc cbf delivery_id now
  refine ⟨run_process_audio_task_ne_none st task_id path cb maxConc proc cbf
    delivery_id now, ?_⟩
  intro h
  rw [run_process_audio_task_denied st task_id path cb maxConc proc cbf delivery_id now h]
  refine ⟨?_, ?_, ?_, rfl⟩
  · simp only [Option.map_some']
    exact congrArg some
      (set_task_error_status_self (ensure_task st task_id now) task_id _ _ now)
  · simp only [Option.map_some']
    exact congrArg some
      (set_task_error_error_self (ensure_task st task_id now) task_id _ _ now)
  · simp only [Option.map_some']
    refine congrArg some ?_
    rw [queueFullStore,
      set_task_error_error_code_self (ensure_task st task_id now) task_id _ _ now]
    rfl

/-- Witness: the amended admission-denial behavior at the concrete busy
registry. -/
theorem admission_denied_fails_queue_full_witness :
    run_process_audio_task exStoreBusy "task-b" "/p.wav" none 1
        (ProcOutcome.fail "boom") false "celery-d2" "T1" ≠ none ∧
    (run_process_audio_task exStoreBusy "task-b" "/p.wav" none 1
        (ProcOutcome.fail "boom") false "celery-d2" "T1").map
        (fun p => recField p.1 "task-b" TaskRecord.error_code) =
      some (some "QUEUE_FULL") :=
  ⟨(admission_denied_fails_queue_full exStoreBusy "task-b" "/p.wav" none 1
      (ProcOutcome.fail "boom") false "celery-d2" "T1").1,
   ((admission_denied_fails_queue_full exStoreBusy "task-b" "/p.wav" none 1
      (ProcOutcome.fail "boom") false "celery-d2" "T1").2 (by decide)).2.2.1⟩

/-- C4: the claim is the code's evident intent, but the code misses it.
When the admitted pipeline raises, Celery invokes
`DiarizationTask.on_failure` with its own delivery id (`self.request.id`),
not with the task function's `task_id` argument, and the sole enqueue
(`.delay` in the upload route) never aligns the two, so `set_task_error`
writes a fresh failed hash under `task:{delivery_id}` while the record for
the invocation's task identifier is left in `processing` — it is never
marked failed, carries the exception message nowhere, and the stray hash
holds the message and `PROCESSING_FAILED` instead. -/
theorem unhandled_failure_misses_task_record :
    ∀ (st : Store) (task_id path : String) (cb : Option String) (maxConc : Nat)
      (cbf : Bool) (delivery_id now msg : String),
      can_start_new_task (ensure_task st task_id now) maxConc = true →
      delivery_id ≠ task_id →
      (run_process_audio_task st task_id path cb maxConc (ProcOutcome.fail msg) cbf
          delivery_id now).map
          (fun p => recField p.1 task_id TaskRecord.status) = some (some "processing") ∧
      (run_process_audio_task st task_id path cb maxConc (ProcOutcome.fail msg) cbf
          delivery_id now).map
          (fun p => recField p.1 delivery_id TaskRecord.status) = some (some "failed") ∧
      (run_process_audio_task st task_id path cb maxConc (ProcOutcome.fail msg) cbf
          delivery_id now).map
          (fun p => recField p.1 delivery_id TaskRecord.error) = some (some msg) ∧
      (run_process_audio_task st task_id path cb maxConc (ProcOutcome.fail msg) cbf
          delivery_id now).map
          (fun p => recField p.1 delivery_id TaskRecord.error_code) =
        some (some "PROCESSING_FAILED") ∧
      (run_process_audio_task st task_id path cb maxConc (ProcOutcome.fail msg) cbf
          delivery_id now).map Prod.snd = some false := by
  intro st task_id path cb maxConc cbf delivery_id now msg h hne
  rw [run_process_audio_task_granted_fail st task_id path cb maxConc msg cbf
    delivery_id now h]
  refine ⟨?_, ?_, ?_, ?_, rfl⟩
  · simp only [Option.map_some']
    refine congrArg some ?_
    rw [on_failure,
      set_task_error_other (preProcessing (ensure_task st task_id now) task_id now)
        delivery_id msg (some "PROCESSING_FAILED") now task_id (Ne.symm hne)
        TaskRecord.status (fun _ _ => rfl) rfl]
    exact preProcessing_status_self (ensure_task st task_id now) task_id now
  · simp only [Option.map_some']
    refine congrArg some ?_
    rw [on_failure]
    exact set_task_error_status_self
      (preProcessing (ensure_task st task_id now) task_id now) delivery_id msg _ now
  · simp only [Option.map_some']
    refine congrArg some ?_
    rw [on_failure]
    exact set_task_error_error_self
      (preProcessing (ensure_task st task_id now) task_id now) delivery_id msg _ now
  · simp only [Option.map_some']
    refine congrArg some ?_
    rw [on_failure,
      set_task_error_error_code_self
        (preProcessing (ensure_task st task_id now) task_id now) delivery_id msg _ now]
    rfl

/-- Witness: a failing pipeline on the admitted concrete registry leaves the
task record in `processing` and deposits `PROCESSING_FAILED` under the
Celery delivery id instead. -/
theorem unhandled_failure_misses_task_record_witness :
    (run_process_audio_task exStoreQueued "task-q" "/p.wav" none 1
        (ProcOutcome.fail "pipeline exploded") false "celery-d1" "T1").map
        (fun p => recField p.1 "task-q" TaskRecord.status) =
      some (some "processing") ∧
    (run_process_audio_task exStoreQueued "task-q" "/p.wav" none 1
        (ProcOutcome.fail "pipeline exploded") false "celery-d1" "T1").map
        (fun p => recField p.1 "celery-d1" TaskRecord.error_code) =
      some (some "PROCESSING_FAILED") :=
  ⟨(unhandled_failure_misses_task_record exStoreQueued "task-q" "/p.wav" none 1
      false "celery-d1" "T1" "pipeline exploded" (by decide) (by decide)).1,
   (unhandled_failure_misses_task_record exStoreQueued "task-q" "/p.wav" none 1
      false "celery-d1" "T1" "pipeline exploded" (by decide) (by decide)).2.2.2.1⟩

/-- C6: callback delivery is best-effort and isolated: a completed run with
a supplied callback URL produces exactly the registry state and outcome of
the same run with no callback at all, whether or not the outbound POST
fails (so a delivery failure is never propagated and never changes the
record), and the admitted successful run leaves the task `completed` with a
normal return. -/
theorem callback_failure_isolated :
    ∀ (st : Store) (task_id path u : String) (maxConc : Nat)
      (cps : List (Int × String)) (meta : Option String) (cbf : Bool)
      (delivery_id now : String),
      run_process_audio_task st task_id path (some u) maxConc
          (ProcOutcome.ok cps meta) cbf delivery_id now =
        run_process_audio_task st task_id path none maxConc
          (ProcOutcome.ok cps meta) false delivery_id now ∧
      (can_start_new_task (ensure_task st task_id now) maxConc = true →
        (run_process_audio_task st task_id path (some u) maxConc
            (ProcOutcome.ok cps meta) cbf delivery_id now).map
            (fun p => recField p.1 task_id TaskRecord.status) =
          some (some "completed") ∧
        (run_process_audio_task st task_id path (some u) maxConc
            (ProcOutcome.ok cps meta) cbf delivery_id now).map Prod.snd = some true) := by
  intro st task_id path u maxConc cps meta cbf delivery_id now
  constructor
  · cases h : can_start_new_task (ensure_task st task_id now) maxConc
    · rw [run_process_audio_task_denied st task_id path (some u) maxConc
          (ProcOutcome.ok cps meta) cbf delivery_id now h,
        run_process_audio_task_denied st task_id path none maxConc
          (ProcOutcome.ok cps meta) false delivery_id now h]
    · rw [run_process_audio_task_granted_ok st task_id path (some u) maxConc cps meta
          cbf delivery_id now h,
        run_process_audio_task_granted_ok st task_id path none maxConc cps meta
          false delivery_id now h]
  · intro h
    rw [run_process_audio_task_granted_ok st task_id path (some u) maxConc cps meta
        cbf delivery_id now h]
    refine ⟨?_, rfl⟩
    simp only [Option.map_some']
    refine congrArg some ?_
    simp only [run_pipeline]
    exact set_task_completed_status_self _ task_id meta now

/-- Witness: a failing callback POST on the admitted concrete registry
leaves the run identical to the callback-free run and the task
`completed`. -/
theorem callback_failure_isolated_witness :
    run_process_audio_task exStoreQueued "task-q" "/p.wav"
        (some "http://cb.example/hook") 1 (ProcOutcome.ok [] none) true
        "celery-d3" "T1" =
      run_process_audio_task exStoreQueued "task-q" "/p.wav" none 1
        (ProcOutcome.ok [] none) false "celery-d3" "T1" ∧
    (run_process_audio_task exStoreQueued "task-q" "/p.wav"
        (some "http://cb.example/hook") 1 (ProcOutcome.ok [] none) true
        "celery-d3" "T1").map
        (fun p => recField p.1 "task-q" TaskRecord.status) = some (some "completed") :=
  ⟨(callback_failure_isolated exStoreQueued "task-q" "/p.wav" "http://cb.example/hook"
      1 [] none true "celery-d3" "T1").1,
   ((callback_failure_isolated exStoreQueued "task-q" "/p.wav" "http://cb.example/hook"
      1 [] none true "celery-d3" "T1").2 (by decide)).1⟩
